import Mathlib

/-!
Verification of the k8s operations layer (package `k8s`): a shallow
embedding of the retry-driven state-convergence engine and its pod-level
helpers, together with theorems settling the specification claims.

External calls to the cluster API (Get/List/Update/Delete) are modelled by
explicit result parameters or per-attempt oracles; machine `int32` counters
are modelled as `Int` or `Nat` where the API guarantees non-negativity;
Go's `(T, error)` returns become `Except`/`Option` values; a Go nil-pointer
dereference is modelled by an `Option` result whose `none` marks the fault.
-/

namespace K8s

/-- Errors produced by the layer. `podsNotFound` is the distinguished
`ErrPodsNotFound` value; `apiError` is any error coming back from the
cluster API carrying its message; `appNotReady` / `appNotTerminated` model
the `ErrAppNotReady` / `ErrAppNotTerminated` structs with their `ID` and
`Cause` fields; `errMsg` models an ad-hoc `fmt.Errorf` error. -/
inductive Err where
  | podsNotFound
  | apiError (msg : String)
  | appNotReady (id cause : String)
  | appNotTerminated (id cause : String)
  | errMsg (s : String)
deriving Repr, DecidableEq

/-- The `Error()` string of each error value, as matched by the
`regexp.MatchString(".+ not found", err.Error())` checks. -/
def Err.message : Err → String
  | .podsNotFound => "Pod(s) not found"
  | .apiError m => m
  | .appNotReady id cause => "app " ++ id ++ " is not ready. Cause: " ++ cause
  | .appNotTerminated id cause => "app " ++ id ++ " is not terminated. Cause: " ++ cause
  | .errMsg s => s

/-- Predicate `startsWithChars pat text`: true when `pat` is an initial segment of
`text` (character-wise). -/
def startsWithChars : List Char → List Char → Bool
  | [], _ => true
  | _ :: _, [] => false
  | p :: ps, t :: ts => p == t && startsWithChars ps ts

/-- Predicate `substrOccurs pat text`: true when `pat` occurs contiguously
somewhere inside `text`. -/
def substrOccurs : List Char → List Char → Bool
  | pat, [] => pat.isEmpty
  | pat, t :: ts => startsWithChars pat (t :: ts) || substrOccurs pat ts

/-- The unanchored Go regular expression `.+ not found` matches a string
exactly when the literal `" not found"` occurs at some position ≥ 1
(at least one character precedes it). -/
def matchesNotFoundRegex (s : String) : Bool :=
  substrOccurs " not found".data (s.data.drop 1)

/-- One container status: whether `State.Running` is non-nil and the
`Ready` flag. -/
structure ContainerStatus where
  stateRunning : Bool
  ready : Bool
deriving Repr, DecidableEq

/-- Go `meta_v1.OwnerReference`: the owner `UID` and the optional
`Controller *bool` flag (`none` models a nil pointer). -/
structure OwnerReference where
  uid : String
  controller : Option Bool
deriving Repr, DecidableEq

/-- A `v1.Pod` restricted to the fields the code reads. `ns` is the
pod's `Namespace`. -/
structure Pod where
  name : String
  ns : String
  uid : String
  ownerReferences : List OwnerReference
  containerStatuses : List ContainerStatus
  initContainerStatuses : List ContainerStatus
  hostIP : String
deriving Repr, DecidableEq

/-- Go `IsPodRunning`: false if any init container is still running, false if
any regular container's state is not running, true otherwise. -/
def IsPodRunning (pod : Pod) : Bool :=
  !(pod.initContainerStatuses.any fun c => c.stateRunning) &&
  (pod.containerStatuses.all fun c => c.stateRunning)

/-- Go `IsPodReady`: same init-container guard as `IsPodRunning`; every
regular container must be running and have `Ready` set. -/
def IsPodReady (pod : Pod) : Bool :=
  !(pod.initContainerStatuses.any fun c => c.stateRunning) &&
  (pod.containerStatuses.all fun c => c.stateRunning && c.ready)

/-- Helper for `IsPodBeingManaged`: returns false when the pod has no owner
references; otherwise scans the owner references in order, dereferencing
`*owner.Controller` on each. A `none` controller pointer makes the Go code
panic, modelled by the `none` result. -/
def scanOwnersForController : List OwnerReference → Option Bool
  | [] => some false
  | o :: rest =>
    match o.controller with
    | none => none
    | some b => if b then some true else scanOwnersForController rest

/-- Go `IsPodBeingManaged` (see `scanOwnersForController`): `none` models the
nil-pointer panic on an owner reference whose controller flag is unset. -/
def IsPodBeingManaged (pod : Pod) : Option Bool :=
  if pod.ownerReferences.length == 0 then some false
  else scanOwnersForController pod.ownerReferences

/-- Go `GetPodsByOwner(ownerUID, namespace)`: takes the result of listing the
namespace's pods; appends a pod once per owner reference whose UID matches;
an empty result becomes the distinguished `ErrPodsNotFound`. -/
def GetPodsByOwner (listResult : Except Err (List Pod)) (ownerUID : String) :
    Except Err (List Pod) :=
  match listResult with
  | .error e => .error e
  | .ok pods =>
    let result := pods.flatMap fun pod =>
      pod.ownerReferences.flatMap fun o =>
        if o.uid == ownerUID then [pod] else []
    if result.length == 0 then .error .podsNotFound else .ok result

/-- Go `GetPodByUID(uid, namespace)`: scans the listed pods and returns the
first one with the given UID, `ErrPodsNotFound` when none matches. The Go
function returns `(*v1.Pod, error)`; the pair mirrors that shape because
the caller `WaitForPodDeletion` inspects both components. -/
def GetPodByUID (listResult : Except Err (List Pod)) (uid : String) :
    Option Pod × Option Err :=
  match listResult with
  | .error e => (none, some e)
  | .ok pods =>
    match pods.find? (fun p => p.uid == uid) with
    | some p => (some p, none)
    | none => (none, some .podsNotFound)

/-- Modelled from the spec: the bounded retry executor
`task.DoRetryWithTimeout` is imported from `github.com/portworx/sched-ops/task`,
whose source is not part of this repository snapshot. Per the spec's
contract, a `(_, false, e)` task result stops immediately (nil `e` is
success, non-nil is fatal); a `(_, true, e)` result sleeps the interval and
retries unless the elapsed time has reached the timeout, in which case the
last observed error is returned (never a synthesized timeout error); a
non-positive timeout still executes exactly one attempt. `fuel` is the
number of retries still allowed by the remaining time; the `Nat` in the
result counts task invocations. -/
def retryLoop {σ : Type} (task : σ → σ × Bool × Option Err) :
    Nat → σ → σ × Option Err × Nat
  | 0, s =>
    let r := task s
    (r.1, r.2.2, 1)
  | fuel + 1, s =>
    let r := task s
    if r.2.1 then
      let rest := retryLoop task fuel r.1
      (rest.1, rest.2.1, rest.2.2 + 1)
    else
      (r.1, r.2.2, 1)

/-- Modelled from the spec: the retry budget of a policy, measured in
attempts beyond the first. A task that is transient on every attempt is
invoked `ceil(timeout/interval)` times; `timeout ≤ 0` (and a degenerate
non-positive interval) allows no retries, so exactly one attempt runs. -/
def retryFuel (timeout interval : Int) : Nat :=
  if timeout ≤ 0 ∨ interval ≤ 0 then 0
  else (((timeout + interval - 1) / interval) - 1).toNat

/-- Modelled from the spec: `task.DoRetryWithTimeout(t, timeout, interval)`
over an explicit state `σ` threaded through the attempts (durations in
seconds). -/
def DoRetryWithTimeout {σ : Type} (task : σ → σ × Bool × Option Err)
    (timeout interval : Int) (s : σ) : σ × Option Err × Nat :=
  retryLoop task (retryFuel timeout interval) s

/-- A `v1.Node` restricted to the fields the code reads and writes:
`Spec.Unschedulable` and the metadata labels. -/
structure Node where
  unschedulable : Bool
  labels : List (String × String)
deriving Repr, DecidableEq

/-- Constant `nodeUpdateTimeout = 1 * time.Minute`, in seconds. -/
def nodeUpdateTimeout : Int := 60

/-- Constant `nodeUpdateRetryInterval = 2 * time.Second`, in seconds. -/
def nodeUpdateRetryInterval : Int := 2

/-- One attempt of the `CordonNode` retry task: fetch the node (per-attempt
error injected by `getErr`), set `Spec.Unschedulable = true` on the local
copy, write it back (`updateOk` tells whether the `Update` call is accepted;
a rejected update leaves the stored node unchanged). Fetch and update
failures are transient. The state is the stored node plus the attempt
index. -/
def cordonTask (getErr : Nat → Option Err) (updateOk : Nat → Bool) :
    Node × Nat → (Node × Nat) × Bool × Option Err
  | (n, i) =>
    match getErr i with
    | some e => ((n, i + 1), true, some e)
    | none =>
      if updateOk i then (({ n with unschedulable := true }, i + 1), false, none)
      else ((n, i + 1), true, some (.apiError "nodes update conflict"))

/-- Go `CordonNode(nodeName)`: the cordon task under the retry executor with
the node-update policy. -/
def CordonNode (getErr : Nat → Option Err) (updateOk : Nat → Bool) (n : Node) :
    (Node × Nat) × Option Err × Nat :=
  DoRetryWithTimeout (cordonTask getErr updateOk)
    nodeUpdateTimeout nodeUpdateRetryInterval (n, 0)

/-- One attempt of the `UnCordonNode` retry task: identical to the cordon
task except that it sets `Spec.Unschedulable = false`. -/
def unCordonTask (getErr : Nat → Option Err) (updateOk : Nat → Bool) :
    Node × Nat → (Node × Nat) × Bool × Option Err
  | (n, i) =>
    match getErr i with
    | some e => ((n, i + 1), true, some e)
    | none =>
      if updateOk i then (({ n with unschedulable := false }, i + 1), false, none)
      else ((n, i + 1), true, some (.apiError "nodes update conflict"))

/-- Go `UnCordonNode(nodeName)`: the uncordon task under the retry executor
with the node-update policy. -/
def UnCordonNode (getErr : Nat → Option Err) (updateOk : Nat → Bool) (n : Node) :
    (Node × Nat) × Option Err × Nat :=
  DoRetryWithTimeout (unCordonTask getErr updateOk)
    nodeUpdateTimeout nodeUpdateRetryInterval (n, 0)

/-- One attempt of the `WaitForPodDeletion` retry task, as a function of
that attempt's pod-listing result: `ErrPodsNotFound` from `GetPodByUID`
stops with success; any other fetch error is transient; a pod that is still
present is a transient failure carrying a diagnostic message. -/
def waitForPodDeletionTask (listResult : Except Err (List Pod))
    (uid ns : String) : Bool × Option Err :=
  match GetPodByUID listResult uid with
  | (_, some e) =>
    if e = .podsNotFound then (false, none) else (true, some e)
  | (some p, none) =>
    (true, some (.errMsg ("pod " ++ ns ++ ":" ++ p.name ++ " (" ++ uid ++
      ") still present in the system")))
  | (none, none) => (false, none)

/-- Go `WaitForPodDeletion(uid, namespace, timeout)`: the wait task under the
retry executor with a 5-second interval; `fetches i` is the pod-listing
result observed by attempt `i`. Returns the final error and the number of
attempts made. -/
def WaitForPodDeletion (fetches : Nat → Except Err (List Pod))
    (uid ns : String) (timeout : Int) : Option Err × Nat :=
  let r := DoRetryWithTimeout
    (fun i => (i + 1, waitForPodDeletionTask (fetches i) uid ns))
    timeout 5 0
  (r.2.1, r.2.2)

/-- The sequential wait loop at the end of `DrainPodsFromNode`: for each
pod in order, wait for its deletion and stop at the first error. `fetches j`
is the listing oracle used while waiting for the `j`-th pod. -/
def drainWaitLoop (fetches : Nat → Nat → Except Err (List Pod))
    (timeout : Int) : List Pod → Nat → Option Err
  | [], _ => none
  | p :: rest, j =>
    match (WaitForPodDeletion (fetches j) p.uid p.ns timeout).1 with
    | some e => some e
    | none => drainWaitLoop fetches timeout rest (j + 1)

/-- Go `DrainPodsFromNode(nodeName, pods, timeout)`: cordon the node (failure
returned as-is); delete the pods (`deleteErr` is the result of the
non-forced `DeletePods` call); on deletion failure, roll back with
`UnCordonNode`, whose own error is only logged, and return the deletion
error; on success, when `timeout > 0`, wait sequentially for every pod to
disappear. Returns the final stored node and the error. -/
def DrainPodsFromNode (cordonGetErr : Nat → Option Err)
    (cordonUpdateOk : Nat → Bool) (uncordonGetErr : Nat → Option Err)
    (uncordonUpdateOk : Nat → Bool) (deleteErr : Option Err)
    (fetches : Nat → Nat → Except Err (List Pod)) (pods : List Pod)
    (timeout : Int) (n : Node) : Node × Option Err :=
  let c := CordonNode cordonGetErr cordonUpdateOk n
  match c.2.1 with
  | some e => (c.1.1, some e)
  | none =>
    match deleteErr with
    | some e =>
      let u := UnCordonNode uncordonGetErr uncordonUpdateOk c.1.1
      (u.1.1, some e)
    | none =>
      if timeout > 0 then (c.1.1, drainWaitLoop fetches timeout pods 0)
      else (c.1.1, none)

/-- Constant `labelUpdateMaxRetries = 5`. -/
def labelUpdateMaxRetries : Nat := 5

/-- Lookup of `node.Labels[key]`. -/
def lookupLabel (labels : List (String × String)) (key : String) :
    Option String :=
  (labels.find? fun kv => kv.1 == key).map fun kv => kv.2

/-- The retry loop of `AddLabelOnNode(name, key, value)`. Go declares an
outer `var err error` and then shadows it inside the loop body with
`node, err := ...Get(...)`; the `err` assigned by the `Update` call is that
inner shadow, so the `return err` after the loop always returns the outer
variable, which is never assigned and stays nil. `gets i` / `updates i` are
the results of attempt `i`'s `Get` and `Update` calls; `fuel` counts the
remaining loop iterations. -/
def addLabelLoop (gets : Nat → Except Err Node) (updates : Nat → Option Err)
    (key value : String) : Nat → Nat → Option Err
  | 0, _ => none
  | fuel + 1, i =>
    match gets i with
    | .error e => some e
    | .ok node =>
      if lookupLabel node.labels key == some value then none
      else
        match updates i with
        | none => none
        | some _ => addLabelLoop gets updates key value fuel (i + 1)

/-- Go `AddLabelOnNode(name, key, value)` (see `addLabelLoop` for the
shadowed-error modelling). -/
def AddLabelOnNode (gets : Nat → Except Err Node) (updates : Nat → Option Err)
    (key value : String) : Option Err :=
  addLabelLoop gets updates key value labelUpdateMaxRetries 0

/-- Go `v1.PersistentVolumeAccessMode`. -/
inductive AccessMode where
  | readWriteOnce
  | readOnlyMany
  | readWriteMany
deriving Repr, DecidableEq

/-- A `v1.PersistentVolumeClaim` restricted to `Spec.AccessModes`. -/
structure PVC where
  accessModes : List AccessMode
deriving Repr, DecidableEq

/-- Go `isPVCShared`: true when any access mode of the claim's spec is
`ReadOnlyMany` or `ReadWriteMany`. -/
def isPVCShared (pvc : PVC) : Bool :=
  pvc.accessModes.any fun mode =>
    mode == AccessMode.readOnlyMany || mode == AccessMode.readWriteMany

/-- A `v1.Volume` of a pod template: `pvcName` is the claim name when
`vol.PersistentVolumeClaim` is non-nil. -/
structure Volume where
  pvcName : Option String
deriving Repr, DecidableEq

/-- An `apps_api.Deployment` restricted to the fields `ValidateDeployment`
reads: the declared replica count (`*dep.Spec.Replicas`), the template
volumes, and the status counters. -/
structure Deployment where
  name : String
  ns : String
  specReplicas : Int
  volumes : List Volume
  availableReplicas : Int
  readyReplicas : Int
deriving Repr, DecidableEq

/-- The volume scan of `ValidateDeployment`: walks the template volumes;
for each persistent-volume-claim volume, fetches the claim through
`pvcGet` (a fetch error aborts the scan with that error) and stops as soon
as a shared claim is found. Returns `(foundPVC, shared)`. -/
def scanVolumesForSharedPVC (pvcGet : String → Except Err PVC) :
    List Volume → Except Err (Bool × Bool)
  | [] => .ok (false, false)
  | v :: rest =>
    match v.pvcName with
    | none => scanVolumesForSharedPVC pvcGet rest
    | some claimName =>
      match pvcGet claimName with
      | .error e => .error e
      | .ok claim =>
        if isPVCShared claim then .ok (true, true)
        else
          match scanVolumesForSharedPVC pvcGet rest with
          | .error e => .error e
          | .ok r => .ok (true, r.2)

/-- The required replica count of `ValidateDeployment`: the declared count,
except that when it is not 1 and the template mounts at least one
persistent volume claim none of which is shared, it is forced to 1. -/
def deploymentRequiredReplicas (pvcGet : String → Except Err PVC)
    (dep : Deployment) : Except Err Int :=
  if dep.specReplicas ≠ 1 then
    match scanVolumesForSharedPVC pvcGet dep.volumes with
    | .error e => .error e
    | .ok r => .ok (if r.1 && !r.2 then 1 else dep.specReplicas)
  else .ok dep.specReplicas

/-- One attempt of the `ValidateDeployment` retry task, as a function of
that attempt's deployment fetch and `GetDeploymentPods` results
(`GetDeploymentPods` can return a nil list with a nil error when no replica
set matches, modelled by `.ok none`). Every failure path is transient. -/
def validateDeploymentTask (pvcGet : String → Except Err PVC)
    (fetchDep : Except Err Deployment)
    (podsResult : Except Err (Option (List Pod))) : Bool × Option Err :=
  match fetchDep with
  | .error e => (true, some e)
  | .ok dep =>
    match deploymentRequiredReplicas pvcGet dep with
    | .error e => (true, some e)
    | .ok required =>
      match podsResult with
      | .error _ =>
        (true, some (.appNotReady dep.name "Failed to get pods for deployment"))
      | .ok none =>
        (true, some (.appNotReady dep.name "Failed to get pods for deployment"))
      | .ok (some pods) =>
        if pods.length == 0 then
          (true, some (.appNotReady dep.name "Deployment has 0 pods"))
        else if required > dep.availableReplicas then
          (true, some (.appNotReady dep.name "available replicas below expected"))
        else if required > dep.readyReplicas then
          (true, some (.appNotReady dep.name "ready replicas below expected"))
        else
          let readyCount := (pods.filter fun p => IsPodReady p).length
          if (readyCount : Int) ≥ required then (false, none)
          else (true, some (.appNotReady dep.name "Pod(s) not yet ready"))

/-- One attempt of the `ValidateTerminatedDeployment` retry task: a fetch
error matching `.+ not found` yields `(true, nil)` (transient flag set,
nil error); any other fetch error is transient; with the deployment still
present, a nil or empty pod list yields success and remaining pods a
transient failure. -/
def validateTerminatedDeploymentTask (fetchDep : Except Err Deployment)
    (podsResult : Except Err (Option (List Pod))) : Bool × Option Err :=
  match fetchDep with
  | .error e =>
    if matchesNotFoundRegex e.message then (true, none) else (true, some e)
  | .ok dep =>
    match podsResult with
    | .error _ =>
      (true, some (.appNotTerminated dep.name "Failed to get pods for deployment"))
    | .ok none => (false, none)
    | .ok (some pods) =>
      if pods.length > 0 then
        (true, some (.appNotTerminated dep.name "pods are still present"))
      else (false, none)

/-- An `apps_api.StatefulSet` restricted to the fields the validators read.
`volumes` carries the pod template's volumes; `ValidateStatefulSet` never
inspects them (it has no persistent-volume-claim logic), they are kept so
that theorems can speak about stateful sets that mount claims. -/
structure StatefulSet where
  name : String
  ns : String
  specReplicas : Int
  volumes : List Volume
  statusReplicas : Int
  statusReadyReplicas : Int
deriving Repr, DecidableEq

/-- One attempt of the `ValidateStatefulSet` retry task, as a function of
that attempt's fetch and `GetStatefulSetPods` results. The declared replica
count is compared unmodified against `Status.Replicas` and
`Status.ReadyReplicas`; then every pod must be ready. Every failure path is
transient. -/
def validateStatefulSetTask (fetchSset : Except Err StatefulSet)
    (podsResult : Except Err (List Pod)) : Bool × Option Err :=
  match fetchSset with
  | .error e => (true, some e)
  | .ok sset =>
    match podsResult with
    | .error _ =>
      (true, some (.appNotReady sset.name "Failed to get pods for statefulset"))
    | .ok pods =>
      if pods.length == 0 then
        (true, some (.appNotReady sset.name "StatefulSet has 0 pods"))
      else if sset.specReplicas ≠ sset.statusReplicas then
        (true, some (.appNotReady sset.name "observed replicas below expected"))
      else if sset.specReplicas ≠ sset.statusReadyReplicas then
        (true, some (.appNotReady sset.name "ready replicas below expected"))
      else
        match pods.find? (fun p => !(IsPodReady p)) with
        | some p => (true, some (.appNotReady sset.name ("Pod: " ++ p.name ++
            " is not yet ready")))
        | none => (false, none)

/-- One attempt of the `ValidateTerminatedStatefulSet` retry task: a fetch
error matching `.+ not found` stops with success (`(false, nil)`); any
other fetch error is transient; with the stateful set still present, a nil
or empty pod list yields success and remaining pods a transient failure. -/
def validateTerminatedStatefulSetTask (fetchSset : Except Err StatefulSet)
    (podsResult : Except Err (List Pod)) : Bool × Option Err :=
  match fetchSset with
  | .error e =>
    if matchesNotFoundRegex e.message then (false, none) else (true, some e)
  | .ok sset =>
    match podsResult with
    | .error _ =>
      (true, some (.appNotTerminated sset.name "Failed to get pods for statefulset"))
    | .ok pods =>
      if pods.length > 0 then
        (true, some (.appNotTerminated sset.name "pods are still present"))
      else (false, none)

/-- A `batch_v1.JobStatus` restricted to the counters `ValidateJob` reads.
The API counters are non-negative `int32` pod counts, modelled as `Nat`. -/
structure JobStatus where
  failed : Nat
  active : Nat
  succeeded : Nat
deriving Repr, DecidableEq

/-- One attempt of the `ValidateJob` retry task, as a function of that
attempt's `GetJob` result: a fetch error is transient; `Failed > 0` is a
fatal failure (transient flag false with a non-nil error); `Active > 0` and
`Succeeded == 0` are transient failures; otherwise success. -/
def validateJobTask (fetchJob : Except Err JobStatus) (name ns : String) :
    Bool × Option Err :=
  match fetchJob with
  | .error e => (true, some e)
  | .ok st =>
    if st.failed > 0 then
      (false, some (.errMsg ("job: [" ++ ns ++ "] " ++ name ++ " has " ++
        toString st.failed ++ " failed pod(s)")))
    else if st.active > 0 then
      (true, some (.errMsg ("job: [" ++ ns ++ "] " ++ name ++ " still has " ++
        toString st.active ++ " active pod(s)")))
    else if st.succeeded == 0 then
      (true, some (.errMsg ("job: [" ++ ns ++ "] " ++ name ++
        " no pod(s) that have succeeded")))
    else (false, none)

/-- Go `ValidateJob(name, namespace, timeout)`: the job task under the retry
executor with a 10-second interval; `fetches i` is the `GetJob` result
observed by attempt `i`. Returns the final error and the number of
attempts made. -/
def ValidateJob (fetches : Nat → Except Err JobStatus) (name ns : String)
    (timeout : Int) : Option Err × Nat :=
  let r := DoRetryWithTimeout
    (fun i => (i + 1, validateJobTask (fetches i) name ns)) timeout 10 0
  (r.2.1, r.2.2)

/-- Top-level `ValidateTerminatedDeployment`: the task under the retry
executor with a 10-minute timeout and 10-second interval; `fetches i` and
`podsResults i` are the results the `i`-th attempt would observe. Returns
the final error and the number of attempts. -/
def ValidateTerminatedDeployment (fetches : Nat → Except Err Deployment)
    (podsResults : Nat → Except Err (Option (List Pod))) : Option Err × Nat :=
  let r := DoRetryWithTimeout
    (fun i => (i + 1, validateTerminatedDeploymentTask (fetches i) (podsResults i)))
    600 10 0
  (r.2.1, r.2.2)

/-- Top-level `ValidateTerminatedStatefulSet`: the task under the retry
executor with a 10-minute timeout and 10-second interval. -/
def ValidateTerminatedStatefulSet (fetches : Nat → Except Err StatefulSet)
    (podsResults : Nat → Except Err (List Pod)) : Option Err × Nat :=
  let r := DoRetryWithTimeout
    (fun i => (i + 1, validateTerminatedStatefulSetTask (fetches i) (podsResults i)))
    600 10 0
  (r.2.1, r.2.2)

/-- A task whose current attempt is non-transient makes the retry loop
stop after exactly that one attempt, whatever fuel remains. -/
theorem retryLoop_fatal {σ : Type} (task : σ → σ × Bool × Option Err)
    (s : σ) (h : (task s).2.1 = false) (fuel : Nat) :
    retryLoop task fuel s = ((task s).1, (task s).2.2, 1) := by
  cases fuel with
  | zero => simp [retryLoop]
  | succ n => simp [retryLoop, h]

/-- A task that is transient with the same error on every attempt runs
`fuel + 1` times and ends with that error (the last observed one). -/
theorem retryLoop_transient_const {σ : Type}
    (task : σ → σ × Bool × Option Err) (e : Option Err)
    (h : ∀ s, (task s).2 = (true, e)) :
    ∀ fuel s, (retryLoop task fuel s).2 = (e, fuel + 1) := by
  intro fuel
  induction fuel with
  | zero =>
    intro s
    have hs := h s
    simp [retryLoop]
    rw [show (task s).2.2 = ((task s).2).2 from rfl, hs]
  | succ n ih =>
    intro s
    have hs := h s
    have htr : (task s).2.1 = true := by rw [show (task s).2.1 = ((task s).2).1 from rfl, hs]
    simp [retryLoop, htr]
    have := ih (task s).1
    rw [show (retryLoop task n (task s).1).2.1 = ((retryLoop task n (task s).1).2).1 from rfl,
      show (retryLoop task n (task s).1).2.2 = ((retryLoop task n (task s).1).2).2 from rfl,
      this]
    exact ⟨rfl, rfl⟩

/-- C6: for every retry policy whose timeout is non-positive, the bounded
retry executor `DoRetryWithTimeout` invokes the supplied task exactly once
(the result is the single attempt's state and error, with attempt count 1). -/
theorem doRetry_nonpos_timeout_single_attempt {σ : Type}
    (task : σ → σ × Bool × Option Err) (timeout interval : Int) (s : σ)
    (h : timeout ≤ 0) :
    DoRetryWithTimeout task timeout interval s = ((task s).1, (task s).2.2, 1) := by
  have hf : retryFuel timeout interval = 0 := by simp [retryFuel, h]
  rw [DoRetryWithTimeout, hf]
  simp [retryLoop]

/-- Witness for C6: a zero timeout with an always-transient task still runs
the task once and returns its error. -/
theorem doRetry_nonpos_timeout_single_attempt_witness :
    DoRetryWithTimeout (fun n : Nat => (n + 1, true, some (Err.errMsg "boom")))
      0 5 0 = (1, some (Err.errMsg "boom"), 1) :=
  doRetry_nonpos_timeout_single_attempt
    (fun n : Nat => (n + 1, true, some (Err.errMsg "boom"))) 0 5 0 (by decide)

/-- C7: `IsPodRunning` is true exactly when no init container is running
and every regular container is running; `IsPodReady` is true exactly when
no init container is running and every regular container is running with
its readiness flag set. -/
theorem isPodRunning_isPodReady_characterization (pod : Pod) :
    (IsPodRunning pod = true ↔
      (∀ c ∈ pod.initContainerStatuses, c.stateRunning = false) ∧
      (∀ c ∈ pod.containerStatuses, c.stateRunning = true)) ∧
    (IsPodReady pod = true ↔
      (∀ c ∈ pod.initContainerStatuses, c.stateRunning = false) ∧
      (∀ c ∈ pod.containerStatuses, c.stateRunning = true ∧ c.ready = true)) := by
  constructor
  · simp [IsPodRunning, List.all_eq_true, List.any_eq_true]
  · simp [IsPodReady, List.all_eq_true, List.any_eq_true]

/-- C9: `IsPodBeingManaged` nil-dereferences the optional controller flag:
on a pod whose single owner reference leaves the flag unset the Go code
panics (modelled by `none`), while a pod without owner references yields
false and a pod with a controller-true reference yields true. -/
theorem isPodBeingManaged_unset_controller_faults :
    IsPodBeingManaged ⟨"p1", "ns1", "uid1", [⟨"owner1", none⟩], [], [], ""⟩ = none ∧
    IsPodBeingManaged ⟨"p2", "ns1", "uid2", [], [], [], ""⟩ = some false ∧
    IsPodBeingManaged
      ⟨"p3", "ns1", "uid3", [⟨"owner1", some true⟩], [], [], ""⟩ = some true := by
  refine ⟨rfl, rfl, rfl⟩

/-- Membership in the matching list built by `GetPodsByOwner`. -/
theorem mem_ownerMatchList (pods : List Pod) (uid : String) (p : Pod) :
    (p ∈ pods.flatMap fun pod => pod.ownerReferences.flatMap fun o =>
        if o.uid == uid then [pod] else []) ↔
      p ∈ pods ∧ ∃ o ∈ p.ownerReferences, o.uid = uid := by
  simp only [List.mem_flatMap]
  constructor
  · rintro ⟨pod, hpod, o, ho, hif⟩
    by_cases h : o.uid == uid
    · rw [if_pos h] at hif
      simp only [List.mem_singleton] at hif
      subst hif
      exact ⟨hpod, o, ho, by simpa using h⟩
    · rw [if_neg h] at hif
      simp at hif
  · rintro ⟨hp, o, ho, huid⟩
    exact ⟨p, hp, o, ho, by simp [huid]⟩

/-- C8: when the pod listing succeeds, `GetPodsByOwner` returns the
distinguished `ErrPodsNotFound` exactly when no listed pod carries an owner
reference with the requested UID; otherwise it returns a non-empty list
whose members are exactly the pods owning such a reference — never an
empty/nil success. -/
theorem getPodsByOwner_spec (pods : List Pod) (uid : String) :
    (GetPodsByOwner (.ok pods) uid = .error .podsNotFound ∨
      ∃ l, GetPodsByOwner (.ok pods) uid = .ok l ∧ l ≠ []) ∧
    (GetPodsByOwner (.ok pods) uid = .error .podsNotFound ↔
      ∀ p ∈ pods, ∀ o ∈ p.ownerReferences, o.uid ≠ uid) ∧
    (∀ l, GetPodsByOwner (.ok pods) uid = .ok l →
      ∀ p, p ∈ l ↔ p ∈ pods ∧ ∃ o ∈ p.ownerReferences, o.uid = uid) := by
  have hmem := mem_ownerMatchList pods uid
  rw [GetPodsByOwner]
  by_cases hlen : (pods.flatMap fun pod => pod.ownerReferences.flatMap fun o =>
      if o.uid == uid then [pod] else []).length = 0
  · have hnil := List.eq_nil_of_length_eq_zero hlen
    simp only [hlen]
    constructor
    · left
      simp
    constructor
    · simp only [beq_self_eq_true, if_pos]
      constructor
      · intro _ p hp o ho huid
        have : p ∈ pods ∧ ∃ o ∈ p.ownerReferences, o.uid = uid :=
          ⟨hp, o, ho, huid⟩
        rw [← hmem p, hnil] at this
        simp at this
      · intro _
        simp
    · intro l hl
      simp at hl
  · have hne : ((pods.flatMap fun pod => pod.ownerReferences.flatMap fun o =>
        if o.uid == uid then [pod] else []).length == 0) = false := by
      simpa using hlen
    simp only [hne, Bool.false_eq_true, if_neg, ite_false]
    constructor
    · right
      refine ⟨_, rfl, ?_⟩
      intro hcontra
      exact hlen (by rw [hcontra]; rfl)
    constructor
    · constructor
      · intro h
        simp at h
      · intro hall
        exfalso
        apply hlen
        rw [List.length_eq_zero, List.eq_nil_iff_forall_not_mem]
        intro p hp
        rw [hmem p] at hp
        exact hall p hp.1 _ hp.2.choose_spec.1 hp.2.choose_spec.2
    · intro l hl p
      have : l = pods.flatMap fun pod => pod.ownerReferences.flatMap fun o =>
          if o.uid == uid then [pod] else [] := by
        cases hl
        rfl
      rw [this]
      exact hmem p

/-- C10: the shadowed `err` in `AddLabelOnNode` makes it report success
after exhausting its five update retries: when every per-attempt `Get`
succeeds with the label absent (or holding another value) and every
`Update` fails, the function returns nil even though nothing was
persisted. -/
theorem addLabelOnNode_exhausted_updates_returns_nil
    (gets : Nat → Except Err Node) (updates : Nat → Option Err)
    (key value : String)
    (hget : ∀ i, ∃ n, gets i = .ok n ∧ lookupLabel n.labels key ≠ some value)
    (hupd : ∀ i, updates i ≠ none) :
    AddLabelOnNode gets updates key value = none := by
  have main : ∀ fuel i, addLabelLoop gets updates key value fuel i = none := by
    intro fuel
    induction fuel with
    | zero => intro i; rfl
    | succ m ih =>
      intro i
      obtain ⟨nd, hg, hne⟩ := hget i
      have hbeq : (lookupLabel nd.labels key == some value) = false := by
        simpa using hne
      obtain ⟨e, he⟩ := Option.ne_none_iff_exists'.mp (hupd i)
      simp only [addLabelLoop, hg, hbeq, Bool.false_eq_true, if_false, he]
      exact ih (i + 1)
  exact main labelUpdateMaxRetries 0

/-- Witness for C10: a node without the label and a permanently failing
update still yield a nil error from `AddLabelOnNode`. -/
theorem addLabelOnNode_exhausted_updates_returns_nil_witness :
    AddLabelOnNode (fun _ => .ok ⟨false, []⟩)
      (fun _ => some (.apiError "conflict")) "k" "v" = none :=
  addLabelOnNode_exhausted_updates_returns_nil
    (fun _ => .ok ⟨false, []⟩) (fun _ => some (.apiError "conflict")) "k" "v"
    (fun _ => ⟨⟨false, []⟩, rfl, by decide⟩)
    (fun _ h => Option.noConfusion h)

/-- Counterexample to C5 as stated: a fetch error other than
`ErrPodsNotFound` is *not* fatal — the poll body marks it transient, and
the executor keeps retrying (two attempts under a 10-second timeout with
the 5-second interval) instead of stopping after one. -/
theorem waitForPodDeletion_fetch_error_not_fatal_cex :
    waitForPodDeletionTask (.error (.apiError "connection refused")) "uid1" "ns1"
        = (true, some (.apiError "connection refused")) ∧
    WaitForPodDeletion (fun _ => .error (.apiError "connection refused"))
        "uid1" "ns1" 10 = (some (.apiError "connection refused"), 2) := by
  refine ⟨rfl, ?_⟩
  rfl

/-- C5 amended: each poll of `WaitForPodDeletion` fetches the pod by UID;
`ErrPodsNotFound` stops the loop with success; a pod still present is a
transient failure; and any *other* fetch error is likewise transient —
retried until the timeout — rather than fatal. -/
theorem waitForPodDeletion_amended (pods : List Pod) (e : Err)
    (uid ns : String) :
    (waitForPodDeletionTask (.error .podsNotFound) uid ns = (false, none)) ∧
    (e ≠ .podsNotFound → waitForPodDeletionTask (.error e) uid ns = (true, some e)) ∧
    ((∃ p ∈ pods, p.uid = uid) →
      (waitForPodDeletionTask (.ok pods) uid ns).1 = true ∧
      (waitForPodDeletionTask (.ok pods) uid ns).2 ≠ none) ∧
    ((∀ p ∈ pods, p.uid ≠ uid) →
      waitForPodDeletionTask (.ok pods) uid ns = (false, none)) := by
  refine ⟨rfl, ?_, ?_, ?_⟩
  · intro hne
    simp [waitForPodDeletionTask, GetPodByUID, hne]
  · intro hex
    have : (pods.find? fun p => p.uid == uid).isSome := by
      rw [List.find?_isSome]
      obtain ⟨p, hp, hu⟩ := hex
      exact ⟨p, hp, by simp [hu]⟩
    obtain ⟨p, hp⟩ := Option.isSome_iff_exists.mp this
    simp [waitForPodDeletionTask, GetPodByUID, hp]
  · intro hall
    have : pods.find? (fun p => p.uid == uid) = none := by
      rw [List.find?_eq_none]
      intro p hp
      simpa using hall p hp
    simp [waitForPodDeletionTask, GetPodByUID, this]

/-- Witness for C5's amended theorem: concrete instances of each branch. -/
theorem waitForPodDeletion_amended_witness :
    (waitForPodDeletionTask (.error .podsNotFound) "u1" "n1" = (false, none)) ∧
    (waitForPodDeletionTask (.error (.apiError "boom")) "u1" "n1"
      = (true, some (.apiError "boom"))) ∧
    ((waitForPodDeletionTask
        (.ok [⟨"p", "n1", "u1", [], [], [], ""⟩]) "u1" "n1").1 = true ∧
      (waitForPodDeletionTask
        (.ok [⟨"p", "n1", "u1", [], [], [], ""⟩]) "u1" "n1").2 ≠ none) ∧
    (waitForPodDeletionTask (.ok []) "u1" "n1" = (false, none)) :=
  ⟨(waitForPodDeletion_amended [] (.apiError "boom") "u1" "n1").1,
   (waitForPodDeletion_amended [] (.apiError "boom") "u1" "n1").2.1 (by decide),
   (waitForPodDeletion_amended [⟨"p", "n1", "u1", [], [], [], ""⟩]
      (.apiError "boom") "u1" "n1").2.2.1
      ⟨⟨"p", "n1", "u1", [], [], [], ""⟩, by simp, rfl⟩,
   (waitForPodDeletion_amended [] (.apiError "boom") "u1" "n1").2.2.2
      (by intro p hp; simp at hp)⟩

/-- A cordon whose first attempt fetches and updates successfully stops
after one attempt, leaving the node marked unschedulable. -/
theorem cordonNode_first_attempt_ok (getErr : Nat → Option Err)
    (updateOk : Nat → Bool) (n : Node) (h1 : getErr 0 = none)
    (h2 : updateOk 0 = true) :
    CordonNode getErr updateOk n =
      (({ n with unschedulable := true }, 1), none, 1) := by
  have htask : cordonTask getErr updateOk (n, 0) =
      (({ n with unschedulable := true }, 1), false, none) := by
    simp [cordonTask, h1, h2]
  rw [CordonNode, DoRetryWithTimeout,
    retryLoop_fatal _ _ (by rw [htask]), htask]

/-- An uncordon whose first attempt fetches and updates successfully stops
after one attempt, leaving the node schedulable. -/
theorem unCordonNode_first_attempt_ok (getErr : Nat → Option Err)
    (updateOk : Nat → Bool) (n : Node) (h1 : getErr 0 = none)
    (h2 : updateOk 0 = true) :
    UnCordonNode getErr updateOk n =
      (({ n with unschedulable := false }, 1), none, 1) := by
  have htask : unCordonTask getErr updateOk (n, 0) =
      (({ n with unschedulable := false }, 1), false, none) := by
    simp [unCordonTask, h1, h2]
  rw [UnCordonNode, DoRetryWithTimeout,
    retryLoop_fatal _ _ (by rw [htask]), htask]

/-- An uncordon whose update is rejected on every attempt leaves the stored
node unchanged, whatever fuel the retry loop has. -/
theorem unCordonNode_all_updates_fail_state (getErr : Nat → Option Err)
    (updateOk : Nat → Bool) (hg : ∀ i, getErr i = none)
    (hu : ∀ i, updateOk i = false) :
    ∀ fuel n i, (retryLoop (unCordonTask getErr updateOk) fuel (n, i)).1.1 = n := by
  intro fuel
  induction fuel with
  | zero =>
    intro n i
    simp [retryLoop, unCordonTask, hg i, hu i]
  | succ m ih =>
    intro n i
    simp only [retryLoop, unCordonTask, hg i, hu i, Bool.false_eq_true, if_false]
    exact ih n (i + 1)

/-- Witness for C7: a pod with one running, ready container is both
running and ready under the characterization. -/
theorem isPodRunning_isPodReady_characterization_witness :
    IsPodRunning ⟨"w7", "n", "u", [], [⟨true, true⟩], [], ""⟩ = true ∧
    IsPodReady ⟨"w7", "n", "u", [], [⟨true, true⟩], [], ""⟩ = true :=
  ⟨(isPodRunning_isPodReady_characterization
      ⟨"w7", "n", "u", [], [⟨true, true⟩], [], ""⟩).1.mpr
    ⟨fun c hc => by simp at hc, fun c hc => by
      simp at hc; rw [hc]⟩,
   (isPodRunning_isPodReady_characterization
      ⟨"w7", "n", "u", [], [⟨true, true⟩], [], ""⟩).2.mpr
    ⟨fun c hc => by simp at hc, fun c hc => by
      simp at hc; rw [hc]; exact ⟨rfl, rfl⟩⟩⟩

/-- Witness for C8: an empty listing yields the distinguished
`ErrPodsNotFound`. -/
theorem getPodsByOwner_spec_witness :
    GetPodsByOwner (.ok ([] : List Pod)) "u1" = .error .podsNotFound :=
  (getPodsByOwner_spec [] "u1").2.1.mpr (fun p hp => by simp at hp)

/-- Counterexample to C2 as stated: draining an *initially cordoned* node
whose pod deletion fails ends with the node schedulable — not in its prior
cordon state — even though the pod-deletion error is returned. -/
theorem drainPodsFromNode_rollback_cex :
    (Node.unschedulable ⟨true, []⟩ = true) ∧
    DrainPodsFromNode (fun _ => none) (fun _ => true) (fun _ => none)
        (fun _ => true) (some (.apiError "pods delete failed"))
        (fun _ _ => .ok []) [] 0 ⟨true, []⟩ =
      (⟨false, []⟩, some (.apiError "pods delete failed")) := by
  refine ⟨rfl, ?_⟩
  rw [DrainPodsFromNode, cordonNode_first_attempt_ok _ _ _ rfl rfl]
  simp only []
  rw [unCordonNode_first_attempt_ok _ _ _ rfl rfl]

/-- C2 amended: when the cordon step succeeds and the pod deletion fails,
`DrainPodsFromNode` returns the pod-deletion error (never the compensating
uncordon's own failure); the node ends *schedulable* when the uncordon
succeeds — which matches the pre-drain state only if the node started
schedulable — and stays cordoned when every uncordon attempt fails. -/
theorem drainPodsFromNode_amended (n : Node) (cGet uGet : Nat → Option Err)
    (cUpd uUpd : Nat → Bool) (delErr : Err)
    (fetches : Nat → Nat → Except Err (List Pod)) (pods : List Pod)
    (timeout : Int) (hc1 : cGet 0 = none) (hc2 : cUpd 0 = true) :
    (DrainPodsFromNode cGet cUpd uGet uUpd (some delErr) fetches pods
        timeout n).2 = some delErr ∧
    (uGet 0 = none → uUpd 0 = true →
      (DrainPodsFromNode cGet cUpd uGet uUpd (some delErr) fetches pods
        timeout n).1.unschedulable = false) ∧
    ((∀ i, uGet i = none) → (∀ i, uUpd i = false) →
      (DrainPodsFromNode cGet cUpd uGet uUpd (some delErr) fetches pods
        timeout n).1.unschedulable = true) := by
  rw [DrainPodsFromNode, cordonNode_first_attempt_ok _ _ _ hc1 hc2]
  refine ⟨rfl, ?_, ?_⟩
  · intro hu1 hu2
    simp only []
    rw [unCordonNode_first_attempt_ok _ _ _ hu1 hu2]
  · intro hg hu
    simp only [UnCordonNode, DoRetryWithTimeout]
    rw [unCordonNode_all_updates_fail_state _ _ hg hu]

/-- Witness for C2's amended theorem: a schedulable node, a failing pod
deletion, and a successful compensation return the deletion error with the
node schedulable again. -/
theorem drainPodsFromNode_amended_witness :
    (DrainPodsFromNode (fun _ => none) (fun _ => true) (fun _ => none)
        (fun _ => true) (some (.apiError "delete failed"))
        (fun _ _ => .ok []) [] 0 ⟨false, []⟩).2 =
      some (.apiError "delete failed") :=
  (drainPodsFromNode_amended ⟨false, []⟩ (fun _ => none) (fun _ => none)
    (fun _ => true) (fun _ => true) (.apiError "delete failed")
    (fun _ _ => .ok []) [] 0 rfl rfl).1

/-- C4: `ValidateJob` succeeds exactly on a status with no failed pods, no
active pods and at least one success; `Failed > 0` makes the poll body
fatal (non-transient, non-nil error) so the executor stops after a single
attempt and returns that error; `Active > 0` or `Succeeded == 0` (without
failures) are transient, retried through the whole budget, with the last
observed error returned at timeout. -/
theorem validateJob_spec (st : JobStatus) (name ns : String) :
    (validateJobTask (.ok st) name ns = (false, none) ↔
      st.failed = 0 ∧ st.active = 0 ∧ 0 < st.succeeded) ∧
    (0 < st.failed → ∃ e, validateJobTask (.ok st) name ns = (false, some e) ∧
      ∀ timeout, ValidateJob (fun _ => .ok st) name ns timeout = (some e, 1)) ∧
    (st.failed = 0 → (0 < st.active ∨ st.succeeded = 0) →
      ∃ e, validateJobTask (.ok st) name ns = (true, some e) ∧
        ∀ timeout, ValidateJob (fun _ => .ok st) name ns timeout =
          (some e, retryFuel timeout 10 + 1)) := by
  refine ⟨?_, ?_, ?_⟩
  · by_cases h1 : 0 < st.failed <;> by_cases h2 : 0 < st.active <;>
      by_cases h3 : st.succeeded = 0 <;>
      simp [validateJobTask, h1, h2, h3] <;> omega
  · intro h1
    refine ⟨Err.errMsg ("job: [" ++ ns ++ "] " ++ name ++ " has " ++
        toString st.failed ++ " failed pod(s)"), ?_, ?_⟩
    · simp [validateJobTask, h1]
    · intro timeout
      have htask : validateJobTask (.ok st) name ns =
          (false, some (.errMsg ("job: [" ++ ns ++ "] " ++ name ++ " has " ++
            toString st.failed ++ " failed pod(s)"))) := by
        simp [validateJobTask, h1]
      rw [ValidateJob, DoRetryWithTimeout,
        retryLoop_fatal _ _ (by rw [htask]), htask]
  · intro h1 h2
    have h1' : ¬ 0 < st.failed := by omega
    have hval : ∃ e, validateJobTask (.ok st) name ns = (true, some e) := by
      rcases h2 with h2 | h2
      · exact ⟨Err.errMsg ("job: [" ++ ns ++ "] " ++ name ++ " still has " ++
          toString st.active ++ " active pod(s)"), by simp [validateJobTask, h1', h2]⟩
      · by_cases ha : 0 < st.active
        · exact ⟨Err.errMsg ("job: [" ++ ns ++ "] " ++ name ++ " still has " ++
            toString st.active ++ " active pod(s)"), by simp [validateJobTask, h1', ha]⟩
        · exact ⟨Err.errMsg ("job: [" ++ ns ++ "] " ++ name ++
            " no pod(s) that have succeeded"), by simp [validateJobTask, h1', ha, h2]⟩
    obtain ⟨e, he⟩ := hval
    refine ⟨e, he, ?_⟩
    intro timeout
    rw [ValidateJob, DoRetryWithTimeout]
    have := retryLoop_transient_const
      (fun i : Nat => (i + 1, validateJobTask (.ok st) name ns)) (some e)
      (fun _ => by simp [he]) (retryFuel timeout 10) 0
    simp only [] at this ⊢
    rw [this]

/-- Witness for C4: a failed status is fatal after one attempt; a
no-progress status is transient; an all-succeeded status validates. -/
theorem validateJob_spec_witness :
    (validateJobTask (.ok ⟨0, 0, 1⟩) "j" "n" = (false, none) ↔
      (0 : Nat) = 0 ∧ (0 : Nat) = 0 ∧ (0 : Nat) < 1) ∧
    (∃ e, validateJobTask (.ok ⟨2, 0, 0⟩) "j" "n" = (false, some e) ∧
      ∀ timeout, ValidateJob (fun _ => .ok ⟨2, 0, 0⟩) "j" "n" timeout = (some e, 1)) ∧
    (∃ e, validateJobTask (.ok ⟨0, 1, 0⟩) "j" "n" = (true, some e) ∧
      ∀ timeout, ValidateJob (fun _ => .ok ⟨0, 1, 0⟩) "j" "n" timeout =
        (some e, retryFuel timeout 10 + 1)) :=
  ⟨(validateJob_spec ⟨0, 0, 1⟩ "j" "n").1,
   (validateJob_spec ⟨2, 0, 0⟩ "j" "n").2.1 (by decide),
   (validateJob_spec ⟨0, 1, 0⟩ "j" "n").2.2 rfl (Or.inl (by decide))⟩

/-- Counterexample to C1 as stated: a stateful set declaring 3 replicas
whose template mounts a ReadWriteOnce (non-shared) claim does *not*
validate once only 1 replica is ready — its poll body returns a transient
failure — whereas a deployment in the identical situation does succeed,
because only `ValidateDeployment` forces the required count to 1. -/
theorem statefulSet_no_replica_override_cex :
    (validateStatefulSetTask
        (.ok ⟨"ss1", "default", 3, [⟨some "claim1"⟩], 3, 1⟩)
        (.ok [⟨"p0", "default", "u0", [], [⟨true, true⟩], [], "h1"⟩,
          ⟨"p1", "default", "u1", [], [⟨true, false⟩], [], "h1"⟩,
          ⟨"p2", "default", "u2", [], [⟨true, false⟩], [], "h1"⟩])).1 = true ∧
    validateStatefulSetTask
        (.ok ⟨"ss1", "default", 3, [⟨some "claim1"⟩], 3, 1⟩)
        (.ok [⟨"p0", "default", "u0", [], [⟨true, true⟩], [], "h1"⟩,
          ⟨"p1", "default", "u1", [], [⟨true, false⟩], [], "h1"⟩,
          ⟨"p2", "default", "u2", [], [⟨true, false⟩], [], "h1"⟩]) ≠
      (false, none) ∧
    validateDeploymentTask (fun _ => .ok ⟨[AccessMode.readWriteOnce]⟩)
        (.ok ⟨"dep1", "default", 3, [⟨some "claim1"⟩], 1, 1⟩)
        (.ok (some [⟨"p0", "default", "u0", [], [⟨true, true⟩], [], "h1"⟩,
          ⟨"p1", "default", "u1", [], [⟨true, false⟩], [], "h1"⟩,
          ⟨"p2", "default", "u2", [], [⟨true, false⟩], [], "h1"⟩])) =
      (false, none) := by
  refine ⟨rfl, ?_, rfl⟩
  intro h
  simp [validateStatefulSetTask] at h

/-- C1 amended: the non-shared-claim replica override exists only in
`ValidateDeployment`: there, a declared count other than 1 with a found,
non-shared claim is forced to 1 (a shared claim keeps the declared count),
and 3 declared replicas with a ReadWriteOnce claim validate once a single
pod is ready and the status counters reach 1. `ValidateStatefulSet`
performs no such override: its poll body succeeds exactly when the pod set
is non-empty, the declared count equals both status counters, and every
pod is ready — regardless of any mounted claim's access modes. -/
theorem replicaOverride_amended (pvcGet : String → Except Err PVC)
    (dep : Deployment) (sset : StatefulSet) (pods : List Pod) :
    (dep.specReplicas ≠ 1 →
      scanVolumesForSharedPVC pvcGet dep.volumes = .ok (true, false) →
      deploymentRequiredReplicas pvcGet dep = .ok 1) ∧
    (scanVolumesForSharedPVC pvcGet dep.volumes = .ok (true, true) →
      deploymentRequiredReplicas pvcGet dep = .ok dep.specReplicas) ∧
    (dep.specReplicas = 3 →
      scanVolumesForSharedPVC pvcGet dep.volumes = .ok (true, false) →
      1 ≤ dep.availableReplicas → 1 ≤ dep.readyReplicas → pods ≠ [] →
      1 ≤ ((pods.filter fun p => IsPodReady p).length : Int) →
      validateDeploymentTask pvcGet (.ok dep) (.ok (some pods)) = (false, none)) ∧
    (validateStatefulSetTask (.ok sset) (.ok pods) = (false, none) ↔
      pods ≠ [] ∧ sset.specReplicas = sset.statusReplicas ∧
      sset.specReplicas = sset.statusReadyReplicas ∧
      ∀ p ∈ pods, IsPodReady p = true) := by
  refine ⟨?_, ?_, ?_, ?_⟩
  · intro h1 h2
    rw [deploymentRequiredReplicas, if_pos h1, h2]
    simp
  · intro h2
    rw [deploymentRequiredReplicas]
    by_cases h : dep.specReplicas ≠ 1
    · rw [if_pos h, h2]
      simp
    · rw [if_neg h]
  · intro h3 hscan ha hr hne hready
    have h1' : dep.specReplicas ≠ 1 := by rw [h3]; decide
    have hreq : deploymentRequiredReplicas pvcGet dep = .ok 1 := by
      rw [deploymentRequiredReplicas, if_pos h1', hscan]
      simp
    have hlen0 : (pods.length == 0) = false := by
      simpa [List.length_eq_zero] using hne
    have hA : ¬ ((1 : Int) > dep.availableReplicas) := by omega
    have hR : ¬ ((1 : Int) > dep.readyReplicas) := by omega
    simp only [validateDeploymentTask, hreq, hlen0, Bool.false_eq_true,
      if_false, hA, hR, ite_false]
    rw [if_pos hready]
  · constructor
    · intro h
      by_cases h0 : pods = []
      · subst h0
        simp [validateStatefulSetTask] at h
      · have hlen : (pods.length == 0) = false := by
          simpa [List.length_eq_zero] using h0
        simp only [validateStatefulSetTask, hlen, Bool.false_eq_true,
          if_false] at h
        by_cases h1 : sset.specReplicas = sset.statusReplicas
        · simp only [h1, ne_eq, not_true_eq_false, if_false, ite_false] at h
          by_cases h2 : sset.specReplicas = sset.statusReadyReplicas
          · rw [h1] at h2
            simp only [h2, ne_eq, not_true_eq_false, if_false, ite_false] at h
            refine ⟨h0, h1, h1.trans h2, ?_⟩
            intro p hp
            cases hfind : pods.find? (fun p => !(IsPodReady p)) with
            | none =>
              have := List.find?_eq_none.mp hfind p hp
              simpa using this
            | some q => rw [hfind] at h; simp at h
          · rw [h1] at h2
            simp only [ne_eq, h2, not_false_eq_true, if_true, ite_true] at h
            simp at h
        · simp only [ne_eq, h1, not_false_eq_true, if_true, ite_true] at h
          simp at h
    · rintro ⟨h0, h1, h2, hall⟩
      have hlen : (pods.length == 0) = false := by
        simpa [List.length_eq_zero] using h0
      have hfind : pods.find? (fun p => !(IsPodReady p)) = none := by
        rw [List.find?_eq_none]
        intro p hp
        simp [hall p hp]
      simp only [validateStatefulSetTask, hlen, Bool.false_eq_true, if_false,
        h1, h2, ne_eq, not_true_eq_false, ite_false, hfind]
      rw [if_neg (not_not_intro (h1.symm.trans h2))]

/-- Witness for C1's amended theorem: a concrete deployment with a
ReadWriteOnce claim and one ready pod out of three validates; the matching
stateful set body succeeds only with all three ready. -/
theorem replicaOverride_amended_witness :
    validateDeploymentTask (fun _ => .ok ⟨[AccessMode.readWriteOnce]⟩)
        (.ok ⟨"dep2", "default", 3, [⟨some "claim2"⟩], 2, 2⟩)
        (.ok (some [⟨"q0", "default", "v0", [], [⟨true, true⟩], [], "h2"⟩])) =
      (false, none) :=
  (replicaOverride_amended (fun _ => .ok ⟨[AccessMode.readWriteOnce]⟩)
      ⟨"dep2", "default", 3, [⟨some "claim2"⟩], 2, 2⟩
      ⟨"ss2", "default", 1, [], 1, 1⟩
      [⟨"q0", "default", "v0", [], [⟨true, true⟩], [], "h2"⟩]).2.2.1
    rfl rfl (by decide) (by decide) (by decide) (by decide)

/-- Counterexample to C3 as stated: (i) on a "not found" fetch error the
`ValidateTerminatedDeployment` poll body returns `(true, nil)` — a
transient signal, not a stop-with-success; (ii) the same body reports
success while the deployment is still present, when `GetDeploymentPods`
returns a nil list with a nil error; (iii) `ValidateTerminatedStatefulSet`
stops with success on a "not found" fetch even though owned pods remain,
so success does not require an empty owned-pod set. -/
theorem terminatedValidators_cex :
    validateTerminatedDeploymentTask
        (.error (.apiError "deployments.apps \"dep1\" not found"))
        (.ok (some [⟨"p0", "default", "u0", [], [], [], ""⟩])) = (true, none) ∧
    validateTerminatedDeploymentTask
        (.ok ⟨"dep1", "default", 1, [], 0, 0⟩) (.ok none) = (false, none) ∧
    validateTerminatedStatefulSetTask
        (.error (.apiError "statefulsets.apps \"ss1\" not found"))
        (.ok [⟨"p0", "default", "u0", [], [], [], ""⟩]) = (false, none) := by
  refine ⟨?_, rfl, ?_⟩ <;> decide

/-- C3 amended: a "not found" fetch error makes the
`ValidateTerminatedStatefulSet` poll body stop with success immediately
(one executor attempt) without consulting the owned-pod set, while the
`ValidateTerminatedDeployment` body reports a transient result with a nil
error, so the executor retries through its whole budget and returns nil
only at timeout exhaustion; with the resource still present, the
deployment check succeeds exactly when the owned-pod lookup yields a nil
or empty list and the stateful-set check exactly when it yields an empty
list; remaining owned pods are a transient failure, never fatal. -/
theorem terminatedValidators_amended (e : Err) (dep : Deployment)
    (sset : StatefulSet) (pods : List Pod)
    (podsD : Except Err (Option (List Pod))) (podsS : Except Err (List Pod))
    (pd : Option (List Pod)) :
    (matchesNotFoundRegex e.message = true →
      validateTerminatedStatefulSetTask (.error e) podsS = (false, none) ∧
      validateTerminatedDeploymentTask (.error e) podsD = (true, none) ∧
      ValidateTerminatedStatefulSet (fun _ => .error e) (fun _ => podsS) = (none, 1) ∧
      ValidateTerminatedDeployment (fun _ => .error e) (fun _ => podsD) =
        (none, retryFuel 600 10 + 1)) ∧
    (matchesNotFoundRegex e.message = false →
      validateTerminatedStatefulSetTask (.error e) podsS = (true, some e) ∧
      validateTerminatedDeploymentTask (.error e) podsD = (true, some e)) ∧
    (validateTerminatedDeploymentTask (.ok dep) (.ok pd) = (false, none) ↔
      pd = none ∨ pd = some []) ∧
    (validateTerminatedStatefulSetTask (.ok sset) (.ok pods) = (false, none) ↔
      pods = []) ∧
    (pods ≠ [] →
      (validateTerminatedStatefulSetTask (.ok sset) (.ok pods)).1 = true ∧
      (validateTerminatedDeploymentTask (.ok dep) (.ok (some pods))).1 = true) := by
  refine ⟨?_, ?_, ?_, ?_, ?_⟩
  · intro h
    have hs : validateTerminatedStatefulSetTask (.error e) podsS = (false, none) := by
      simp [validateTerminatedStatefulSetTask, h]
    have hd : validateTerminatedDeploymentTask (.error e) podsD = (true, none) := by
      simp [validateTerminatedDeploymentTask, h]
    refine ⟨hs, hd, ?_, ?_⟩
    · rw [ValidateTerminatedStatefulSet, DoRetryWithTimeout,
        retryLoop_fatal _ _ (by simp [hs]), hs]
    · rw [ValidateTerminatedDeployment, DoRetryWithTimeout]
      have := retryLoop_transient_const
        (fun i : Nat => (i + 1, validateTerminatedDeploymentTask (.error e) podsD))
        none (fun _ => by simp [hd]) (retryFuel 600 10) 0
      simp only [] at this ⊢
      rw [this]
  · intro h
    constructor
    · simp [validateTerminatedStatefulSetTask, h]
    · simp [validateTerminatedDeploymentTask, h]
  · cases pd with
    | none => simp [validateTerminatedDeploymentTask]
    | some l =>
      cases l with
      | nil => simp [validateTerminatedDeploymentTask]
      | cons a as => simp [validateTerminatedDeploymentTask]
  · cases pods with
    | nil => simp [validateTerminatedStatefulSetTask]
    | cons a as => simp [validateTerminatedStatefulSetTask]
  · intro hne
    cases pods with
    | nil => exact absurd rfl hne
    | cons a as =>
      constructor
      · simp [validateTerminatedStatefulSetTask]
      · simp [validateTerminatedDeploymentTask]

/-- Witness for C3's amended theorem: a concrete "not found" fetch error
stops the stateful-set check after one attempt with success while the
deployment check consumes its whole retry budget before returning nil. -/
theorem terminatedValidators_amended_witness :
    validateTerminatedStatefulSetTask
        (.error (.apiError "x not found")) (.ok []) = (false, none) ∧
    validateTerminatedDeploymentTask
        (.error (.apiError "x not found")) (.ok none) = (true, none) ∧
    ValidateTerminatedStatefulSet (fun _ => .error (.apiError "x not found"))
        (fun _ => .ok []) = (none, 1) ∧
    ValidateTerminatedDeployment (fun _ => .error (.apiError "x not found"))
        (fun _ => .ok none) = (none, retryFuel 600 10 + 1) :=
  (terminatedValidators_amended (.apiError "x not found")
    ⟨"d", "n", 1, [], 0, 0⟩ ⟨"s", "n", 1, [], 0, 0⟩ [] (.ok none) (.ok [])
    none).1 (by decide)

end K8s
